import Mathlib

/-!
Verification of the pydoit i-doit JSON-RPC client wrapper
(src/pydoit/api.py) against its specification.

The Python code is shallowly embedded: Python values that flow through the
client are modelled by `PyVal`, Python dicts by `PyDict` association lists
in insertion order, raised exceptions by an explicit `PyExc` sum, and the
mutable client object by explicit state passing. The HTTP response is an
input parameter, since the network is an oracle for this library.
-/

set_option autoImplicit false

namespace Pydoit

mutual

/-- Python values that appear in the client: `None`, booleans, integers,
strings, one-element tuples (these arise from the trailing commas in
`IdoitRequestError.__init__`), and string-keyed dicts kept in insertion
order. -/
inductive PyVal where
  | pnone
  | pbool (b : Bool)
  | pint (n : Int)
  | pstr (s : String)
  | ptuple1 (v : PyVal)
  | pdict (entries : PyDict)
deriving DecidableEq, Repr

/-- A Python dict with string keys, as an association list in insertion
order. -/
inductive PyDict where
  | nil
  | cons (key : String) (val : PyVal) (rest : PyDict)
deriving DecidableEq, Repr

end

/-- Python truthiness for the values modelled by `PyVal`:
`None`, `0`, and empty strings/dicts are falsy; a one-element tuple is
truthy. -/
def PyVal.truthy : PyVal → Bool
  | .pnone => false
  | .pbool b => b
  | .pint n => n != 0
  | .pstr s => !s.isEmpty
  | .ptuple1 _ => true
  | .pdict .nil => false
  | .pdict (.cons _ _ _) => true

/-- Truthiness of an optional string field (`None` and `""` are falsy). -/
def truthyOptStr : Option String → Bool
  | none => false
  | some s => !s.isEmpty

/-- Dict lookup `d.get(key)`. -/
def PyDict.get : PyDict → String → Option PyVal
  | .nil, _ => none
  | .cons k v rest, key => if k = key then some v else rest.get key

/-- Python dict update `d[key] = val` / `{**d, key: val}` semantics:
if the key is present its value is replaced in place, otherwise the
entry is appended at the end. -/
def PyDict.set : PyDict → String → PyVal → PyDict
  | .nil, key, val => .cons key val .nil
  | .cons k v rest, key, val =>
      if k = key then .cons key val rest else .cons k v (rest.set key val)

/-- `key in d`. -/
def PyDict.hasKey (d : PyDict) (key : String) : Bool :=
  (d.get key).isSome

/-- Build a dict literal from a list of entries. -/
def PyDict.ofList : List (String × PyVal) → PyDict
  | [] => .nil
  | (k, v) :: rest => .cons k v (ofList rest)

/-- Client state of class `Idoit` (src/pydoit/api.py, `__init__`,
lines 13-27). `session_id` holds whatever value was assigned to it, a
`PyVal`; the constructor sets it to `None`. -/
structure Idoit where
  url : String
  api_key : String
  username : Option String
  password : Option String
  session_id : PyVal
deriving DecidableEq, Repr

/-- `Idoit.__init__`: stores url, api key and the optional credentials,
and sets `session_id = None`. -/
def Idoit.init (url api_key : String) (username password : Option String) : Idoit :=
  { url := url, api_key := api_key, username := username, password := password,
    session_id := PyVal.pnone }

/-- Header construction in `Idoit._req` (lines 46-56): always a
Content-Type header; then, if `self.session_id` is truthy, the
`X-RPC-Auth-Session` header; otherwise, if both `self.username` and
`self.password` are truthy, the username/password auth headers;
otherwise nothing further. -/
def Idoit.reqHeaders (c : Idoit) : PyDict :=
  let headers := PyDict.ofList [("Content-Type", PyVal.pstr "application/json")]
  if c.session_id.truthy then
    headers.set "X-RPC-Auth-Session" c.session_id
  else if truthyOptStr c.username && truthyOptStr c.password then
    (headers.set "X-RPC-Auth-Username" (PyVal.pstr (c.username.getD ""))).set
      "X-RPC-Auth-Password" (PyVal.pstr (c.password.getD ""))
  else
    headers

/-- Body construction in `Idoit._req` (lines 58-66): the JSON-RPC
envelope with version "2.0", the method name, the keyword params merged
with the apikey entry, and the request id. -/
def Idoit.reqBody (c : Idoit) (method : String) (req_id : Int)
    (params : PyDict) : PyDict :=
  PyDict.ofList
    [("version", PyVal.pstr "2.0"),
     ("method", PyVal.pstr method),
     ("params", PyVal.pdict (params.set "apikey" (PyVal.pstr c.api_key))),
     ("id", PyVal.pint req_id)]

/-- An HTTP response as seen by `_req`: status code and parsed JSON body
(a top-level JSON object). -/
structure HTTPResponse where
  status_code : Nat
  json : PyDict
deriving DecidableEq, Repr

/-- The fields stored on a raised `IdoitRequestError` (lines 262-266). -/
structure IdoitRequestError where
  code : PyVal
  msg : PyVal
  data : PyVal
deriving DecidableEq, Repr

/-- `IdoitRequestError.__init__` (lines 263-266). The assignments
`self.code = code,` and `self.msg = msg,` end in a comma, so the stored
`code` and `msg` are one-element tuples; `data` is stored as given. -/
def IdoitRequestError.init (code msg data : PyVal) : IdoitRequestError :=
  { code := PyVal.ptuple1 code, msg := PyVal.ptuple1 msg, data := data }

/-- Exceptions the embedded code can raise. `keyError`/`typeError` model
the Python errors raised by subscripting a dict without the key or a
non-dict value. -/
inductive PyExc where
  | keyError (key : String)
  | typeError
  | requestError (e : IdoitRequestError)
  | missingCredentials
  | alreadyLoggedIn
deriving DecidableEq, Repr

/-- Python subscript `v[key]`: defined on dicts with the key present,
`KeyError` on dicts without it, `TypeError` on non-dicts. -/
def pyIndex (v : PyVal) (key : String) : Except PyExc PyVal :=
  match v with
  | .pdict d =>
      match d.get key with
      | some r => .ok r
      | none => .error (.keyError key)
  | _ => .error .typeError

/-- Response handling in `Idoit._req` (lines 70-77): on status 200,
return `body["result"]` if present, else raise an `IdoitRequestError`
built from `body["error"]` if present, else fall through and return
`None`; on any other status raise `IdoitRequestError("-1", "Unknown
Error", None)`. -/
def handleResponse (resp : HTTPResponse) : Except PyExc PyVal :=
  if resp.status_code = 200 then
    match resp.json.get "result" with
    | some v => .ok v
    | none =>
        match resp.json.get "error" with
        | some err =>
            match pyIndex err "code" with
            | .error e => .error e
            | .ok c =>
                match pyIndex err "message" with
                | .error e => .error e
                | .ok m =>
                    match pyIndex err "data" with
                    | .error e => .error e
                    | .ok d =>
                        .error (.requestError (IdoitRequestError.init c m d))
        | none => .ok PyVal.pnone
  else
    .error (.requestError
      (IdoitRequestError.init (PyVal.pstr "-1") (PyVal.pstr "Unknown Error") PyVal.pnone))

/-- `Idoit.login` (lines 84-94): requires truthy username and password,
else raises `IdoitMissingCredentialsError`; requires `session_id == None`,
else raises `IdoitAlreadyLoggedInError`; otherwise dispatches
`idoit.login` and stores `result["session-id"]` into `session_id`.
Returns the client state after the call together with the raised
exception, if any; an exception leaves the state unchanged. -/
def Idoit.login (c : Idoit) (resp : HTTPResponse) : Idoit × Option PyExc :=
  if truthyOptStr c.username && truthyOptStr c.password then
    if c.session_id = PyVal.pnone then
      match handleResponse resp with
      | .ok result =>
          match pyIndex result "session-id" with
          | .ok sid => ({ c with session_id := sid }, none)
          | .error e => (c, some e)
      | .error e => (c, some e)
    else
      (c, some .alreadyLoggedIn)
  else
    (c, some .missingCredentials)

/-- `Idoit.logout` (lines 97-100): dispatch `idoit.logout`, then set
`session_id = None`. An exception from the dispatch propagates before
the assignment, leaving the state unchanged. -/
def Idoit.logout (c : Idoit) (resp : HTTPResponse) : Idoit × Option PyExc :=
  match handleResponse resp with
  | .ok _ => ({ c with session_id := PyVal.pnone }, none)
  | .error e => (c, some e)

/-- An RPC call as handed to `_req`: method name, request id, and the
keyword params in order. -/
structure RPCCall where
  method : String
  req_id : Int
  params : PyDict
deriving DecidableEq, Repr

/-- `Idoit.object_create` (lines 135-159): calls `_req` with method
`cmdb.object.create` and the params type, title, category, purpose,
cmdb_status, description in that order; `req_id` is passed as the named
`_req` parameter, not as an RPC param. -/
def Idoit.object_create (obj_type title category purpose cmdb_status description : PyVal)
    (req_id : Int) : RPCCall :=
  { method := "cmdb.object.create", req_id := req_id,
    params := PyDict.ofList
      [("type", obj_type), ("title", title), ("category", category),
       ("purpose", purpose), ("cmdb_status", cmdb_status),
       ("description", description)] }

/-- Client states reachable through the public API: a freshly constructed
client, or the result of a successful `login` or `logout` call (the only
methods that mutate state; failed calls leave the state unchanged by
definition of `login` and `logout`). -/
inductive Reachable : Idoit → Prop where
  | init : ∀ url api_key username password,
      Reachable (Idoit.init url api_key username password)
  | login_ok : ∀ c resp c', Reachable c → Idoit.login c resp = (c', none) → Reachable c'
  | logout_ok : ∀ c resp c', Reachable c → Idoit.logout c resp = (c', none) → Reachable c'

/-! ### Dict lemmas -/

theorem PyDict.get_set_self : ∀ (d : PyDict) (key : String) (v : PyVal),
    (d.set key v).get key = some v
  | .nil, key, v => by simp [PyDict.set, PyDict.get]
  | .cons k w rest, key, v => by
      by_cases h : k = key
      · simp [PyDict.set, h, PyDict.get]
      · simp [PyDict.set, h, PyDict.get, PyDict.get_set_self rest key v]

theorem PyDict.get_set_ne : ∀ (d : PyDict) (key k : String) (v : PyVal),
    k ≠ key → (d.set key v).get k = d.get k
  | .nil, key, k, v, h => by simp [PyDict.set, PyDict.get, Ne.symm h]
  | .cons k' w rest, key, k, v, h => by
      by_cases h' : k' = key
      · subst h'
        simp [PyDict.set, PyDict.get, Ne.symm h]
      · by_cases h'' : k' = k
        · simp [PyDict.set, h', PyDict.get, h'', h]
        · simp [PyDict.set, h', PyDict.get, h'', PyDict.get_set_ne rest key k v h]

/-! ### State invariant: reachable clients with a session have credentials -/

theorem reachable_creds_of_session :
    ∀ c : Idoit, Reachable c → c.session_id ≠ PyVal.pnone →
      (truthyOptStr c.username && truthyOptStr c.password) = true := by
  intro c h
  induction h with
  | init url api_key username password =>
      intro hs
      exact absurd rfl hs
  | login_ok c resp c' hr heq ih =>
      intro _
      unfold Idoit.login at heq
      by_cases hcred : (truthyOptStr c.username && truthyOptStr c.password) = true
      · rw [if_pos hcred] at heq
        by_cases hsid : c.session_id = PyVal.pnone
        · rw [if_pos hsid] at heq
          cases hresp : handleResponse resp with
          | ok result =>
              simp only [hresp] at heq
              cases hidx : pyIndex result "session-id" with
              | ok sid =>
                  simp only [hidx] at heq
                  rw [Prod.mk.injEq] at heq
                  rw [← heq.1]
                  simpa using hcred
              | error e =>
                  simp only [hidx] at heq
                  simp at heq
          | error e =>
              simp only [hresp] at heq
              simp at heq
        · rw [if_neg hsid] at heq
          simp at heq
      · rw [if_neg hcred] at heq
        simp at heq
  | logout_ok c resp c' hr heq ih =>
      intro hs
      unfold Idoit.logout at heq
      cases hresp : handleResponse resp with
      | ok v =>
          simp only [hresp] at heq
          rw [Prod.mk.injEq] at heq
          rw [← heq.1] at hs
          exact absurd rfl hs
      | error e =>
          simp only [hresp] at heq
          simp at heq

/-! ### Concrete fixtures used in witnesses and counterexamples -/

/-- A successful `idoit.login` HTTP response whose result carries the
session identifier "abc". -/
def respLoginAbc : HTTPResponse :=
  { status_code := 200,
    json := PyDict.ofList
      [("result", PyVal.pdict (PyDict.ofList [("session-id", PyVal.pstr "abc")]))] }

/-- A 200 response whose body is a plain result value. -/
def respOk : HTTPResponse :=
  { status_code := 200, json := PyDict.ofList [("result", PyVal.pbool true)] }

/-- A 200 response whose body has neither a "result" nor an "error" key. -/
def respBare : HTTPResponse :=
  { status_code := 200, json := PyDict.ofList [("noise", PyVal.pint 7)] }

/-- A 200 response carrying the JSON-RPC error envelope of claim C2. -/
def respErrBad : HTTPResponse :=
  { status_code := 200,
    json := PyDict.ofList
      [("error", PyVal.pdict (PyDict.ofList
        [("code", PyVal.pint (-1)), ("message", PyVal.pstr "bad"),
         ("data", PyVal.pnone)]))] }

/-- A non-success HTTP response with a body. -/
def resp500 : HTTPResponse :=
  { status_code := 500, json := PyDict.ofList [("detail", PyVal.pstr "boom")] }

/-- Another non-success HTTP response, different status and body. -/
def resp404 : HTTPResponse :=
  { status_code := 404, json := PyDict.nil }

/-- A freshly constructed client with credentials. -/
def cFresh : Idoit :=
  Idoit.init "https://demo.example/src/jsonrpc.php" "key123" (some "admin") (some "pw")

/-- The client after a successful login against `respLoginAbc`. -/
def cLogged : Idoit :=
  (cFresh.login respLoginAbc).1

/-- A freshly constructed client without credentials. -/
def cNoCreds : Idoit :=
  Idoit.init "https://demo.example/src/jsonrpc.php" "key123" none none

/-- A client with empty-string credentials and an empty-string session. -/
def cEmptyStrings : Idoit :=
  { url := "https://demo.example/src/jsonrpc.php", api_key := "key123",
    username := some "", password := some "", session_id := PyVal.pstr "" }

/-! ### Claim theorems -/

/-- Claim C2 (code-bug evidence): for the 200 response whose body is the
error envelope with code -1, message "bad", data null, the dispatcher
raises an `IdoitRequestError`; but the trailing commas in
`IdoitRequestError.__init__` store `code` and `msg` as one-element
tuples, so the exposed code is the tuple `(-1,)` rather than `-1` and
the exposed message is `("bad",)` rather than `"bad"`; only `data`
equals null as claimed. -/
theorem requestError_tuple_fields :
    handleResponse respErrBad =
      Except.error (PyExc.requestError
        { code := PyVal.ptuple1 (PyVal.pint (-1)),
          msg := PyVal.ptuple1 (PyVal.pstr "bad"),
          data := PyVal.pnone })
  ∧ PyVal.ptuple1 (PyVal.pint (-1)) ≠ PyVal.pint (-1)
  ∧ PyVal.ptuple1 (PyVal.pstr "bad") ≠ PyVal.pstr "bad" := by
  refine ⟨rfl, by decide, by decide⟩

/-- Claim C4: for a client with truthy credentials and no session, a
login whose dispatched call returns a result carrying session-id "abc"
sets the client session identifier to "abc" and raises nothing. -/
theorem login_success_sets_session (c : Idoit)
    (hcred : (truthyOptStr c.username && truthyOptStr c.password) = true)
    (hs : c.session_id = PyVal.pnone) :
    Idoit.login c respLoginAbc = ({ c with session_id := PyVal.pstr "abc" }, none) := by
  unfold Idoit.login
  rw [if_pos hcred, if_pos hs]
  rfl

/-- Witness for C4 at a concrete client. -/
theorem login_success_sets_session_witness :
    Idoit.login cFresh respLoginAbc = ({ cFresh with session_id := PyVal.pstr "abc" }, none) :=
  login_success_sets_session cFresh (by decide) (by decide)

/-- Claim C5: logout clears the session exactly when the dispatched
`idoit.logout` call returns without raising; when it raises, the state
(and so the session field) is unchanged and the exception propagates. -/
theorem logout_clears_session_iff_ok (c : Idoit) (resp : HTTPResponse) :
    (∀ v, handleResponse resp = Except.ok v →
        Idoit.logout c resp = ({ c with session_id := PyVal.pnone }, none))
  ∧ (∀ e, handleResponse resp = Except.error e →
        Idoit.logout c resp = (c, some e)) := by
  constructor
  · intro v hv
    unfold Idoit.logout
    rw [hv]
  · intro e he
    unfold Idoit.logout
    rw [he]

/-- Witness for C5: a logged-in client, one succeeding logout and one
failing logout. -/
theorem logout_clears_session_iff_ok_witness :
    Idoit.logout cLogged respOk = ({ cLogged with session_id := PyVal.pnone }, none)
  ∧ Idoit.logout cLogged resp500 =
      (cLogged, some (PyExc.requestError
        (IdoitRequestError.init (PyVal.pstr "-1") (PyVal.pstr "Unknown Error") PyVal.pnone))) :=
  ⟨(logout_clears_session_iff_ok cLogged respOk).1 (PyVal.pbool true) rfl,
   (logout_clears_session_iff_ok cLogged resp500).2
      (PyExc.requestError
        (IdoitRequestError.init (PyVal.pstr "-1") (PyVal.pstr "Unknown Error") PyVal.pnone))
      rfl⟩

/-- Claim C6 counterexample: two non-success responses with different
statuses and bodies yield one and the same raised error, whose fields
are the fixed values `("-1",)`, `("Unknown Error",)` and `None` — so the
raised `IdoitRequestError` does not carry the raw response body or the
status. -/
theorem non200_error_ignores_body_and_status :
    handleResponse resp500 = handleResponse resp404
  ∧ handleResponse resp500 =
      Except.error (PyExc.requestError
        { code := PyVal.ptuple1 (PyVal.pstr "-1"),
          msg := PyVal.ptuple1 (PyVal.pstr "Unknown Error"),
          data := PyVal.pnone })
  ∧ PyVal.ptuple1 (PyVal.pstr "-1") ≠ PyVal.pint 500
  ∧ PyVal.ptuple1 (PyVal.pstr "Unknown Error") ≠ PyVal.pdict resp500.json
  ∧ PyVal.pnone ≠ PyVal.pdict resp500.json
  ∧ PyVal.pnone ≠ PyVal.pint 500
  ∧ PyVal.pnone ≠ PyVal.pstr "boom" := by
  refine ⟨rfl, rfl, ?_, ?_, ?_, ?_, ?_⟩ <;> decide

/-- Claim C6 amended: every response with status other than 200 makes the
dispatcher raise an `IdoitRequestError` built from the fixed arguments
"-1", "Unknown Error", `None`, independent of the response body and
status. -/
theorem non200_raises_fixed_requestError (status : Nat) (body : PyDict)
    (h : status ≠ 200) :
    handleResponse { status_code := status, json := body } =
      Except.error (PyExc.requestError
        (IdoitRequestError.init (PyVal.pstr "-1") (PyVal.pstr "Unknown Error") PyVal.pnone)) := by
  simp [handleResponse, h]

/-- Witness for the amended C6 at status 500. -/
theorem non200_raises_fixed_requestError_witness :
    handleResponse { status_code := 500, json := PyDict.ofList [("detail", PyVal.pstr "boom")] } =
      Except.error (PyExc.requestError
        (IdoitRequestError.init (PyVal.pstr "-1") (PyVal.pstr "Unknown Error") PyVal.pnone)) :=
  non200_raises_fixed_requestError 500 (PyDict.ofList [("detail", PyVal.pstr "boom")]) (by decide)

/-- Claim C9: a 200 response whose body has neither a "result" nor an
"error" key raises nothing and yields `None`, and a logout seeing such a
response still clears the session. -/
theorem empty_envelope_returns_none (resp : HTTPResponse)
    (h200 : resp.status_code = 200)
    (hr : resp.json.get "result" = none)
    (he : resp.json.get "error" = none) :
    handleResponse resp = Except.ok PyVal.pnone
  ∧ ∀ c : Idoit, Idoit.logout c resp = ({ c with session_id := PyVal.pnone }, none) := by
  have hmain : handleResponse resp = Except.ok PyVal.pnone := by
    unfold handleResponse
    rw [if_pos h200, hr, he]
  refine ⟨hmain, fun c => ?_⟩
  unfold Idoit.logout
  rw [hmain]

/-- Witness for C9: a concrete keyless 200 body and a concrete client. -/
theorem empty_envelope_returns_none_witness :
    handleResponse respBare = Except.ok PyVal.pnone
  ∧ Idoit.logout cLogged respBare = ({ cLogged with session_id := PyVal.pnone }, none) :=
  ⟨(empty_envelope_returns_none respBare rfl rfl rfl).1,
   (empty_envelope_returns_none respBare rfl rfl rfl).2 cLogged⟩

/-- Claim C1: exactly one authentication mode per request, chosen by
precedence: truthy session identifier → the X-RPC-Auth-Session header
carrying the session and no username/password auth headers; otherwise
truthy username and password → the username/password auth headers and no
session header; otherwise only the Content-Type header, i.e. no
authentication at all. -/
theorem auth_precedence_exclusive (c : Idoit) :
    (c.session_id.truthy = true →
        c.reqHeaders.get "X-RPC-Auth-Session" = some c.session_id
      ∧ c.reqHeaders.hasKey "X-RPC-Auth-Username" = false
      ∧ c.reqHeaders.hasKey "X-RPC-Auth-Password" = false)
  ∧ (c.session_id.truthy = false →
      (truthyOptStr c.username && truthyOptStr c.password) = true →
        c.reqHeaders.hasKey "X-RPC-Auth-Username" = true
      ∧ c.reqHeaders.hasKey "X-RPC-Auth-Password" = true
      ∧ c.reqHeaders.hasKey "X-RPC-Auth-Session" = false)
  ∧ (c.session_id.truthy = false →
      (truthyOptStr c.username && truthyOptStr c.password) = false →
        c.reqHeaders = PyDict.ofList [("Content-Type", PyVal.pstr "application/json")]) := by
  refine ⟨fun hs => ?_, fun hs hup => ?_, fun hs hup => ?_⟩
  · simp only [Idoit.reqHeaders]
    rw [if_pos hs]
    exact ⟨rfl, rfl, rfl⟩
  · simp only [Idoit.reqHeaders]
    rw [if_neg (by simp [hs]), if_pos hup]
    exact ⟨rfl, rfl, rfl⟩
  · simp only [Idoit.reqHeaders]
    rw [if_neg (by simp [hs]), if_neg (by simp [hup])]

/-- Witness for C1: a logged-in client uses the session header even with
credentials configured; a fresh client with credentials uses the
username/password headers; a credential-less client sends only the
Content-Type header. -/
theorem auth_precedence_exclusive_witness :
    (cLogged.reqHeaders.get "X-RPC-Auth-Session" = some cLogged.session_id
      ∧ cLogged.reqHeaders.hasKey "X-RPC-Auth-Username" = false
      ∧ cLogged.reqHeaders.hasKey "X-RPC-Auth-Password" = false)
  ∧ (cFresh.reqHeaders.hasKey "X-RPC-Auth-Username" = true
      ∧ cFresh.reqHeaders.hasKey "X-RPC-Auth-Password" = true
      ∧ cFresh.reqHeaders.hasKey "X-RPC-Auth-Session" = false)
  ∧ cNoCreds.reqHeaders = PyDict.ofList [("Content-Type", PyVal.pstr "application/json")] :=
  ⟨(auth_precedence_exclusive cLogged).1 (by decide),
   (auth_precedence_exclusive cFresh).2.1 (by decide) (by decide),
   (auth_precedence_exclusive cNoCreds).2.2 (by decide) (by decide)⟩

/-- `cLogged` is a state the public API can produce. -/
theorem reachable_cLogged : Reachable cLogged :=
  Reachable.login_ok cFresh respLoginAbc cLogged
    (Reachable.init "https://demo.example/src/jsonrpc.php" "key123" (some "admin") (some "pw"))
    rfl

/-- Claim C3: login raises `IdoitMissingCredentialsError` whenever
username+password are not configured (not both truthy); and for every
reachable client whose session is set, login raises
`IdoitAlreadyLoggedInError` (a reachable client with a session always
has truthy credentials, so the credential check passes and the session
check fires). -/
theorem login_error_precedence (c : Idoit) (hreach : Reachable c) :
    ((truthyOptStr c.username && truthyOptStr c.password) = false →
        ∀ resp, Idoit.login c resp = (c, some PyExc.missingCredentials))
  ∧ (c.session_id ≠ PyVal.pnone →
        ∀ resp, Idoit.login c resp = (c, some PyExc.alreadyLoggedIn)) := by
  constructor
  · intro hcred resp
    unfold Idoit.login
    rw [if_neg (by simp [hcred])]
  · intro hs resp
    have hcred := reachable_creds_of_session c hreach hs
    unfold Idoit.login
    rw [if_pos hcred, if_neg hs]

/-- Witness for C3: a credential-less client and a logged-in client. -/
theorem login_error_precedence_witness :
    Idoit.login cNoCreds respOk = (cNoCreds, some PyExc.missingCredentials)
  ∧ Idoit.login cLogged respOk = (cLogged, some PyExc.alreadyLoggedIn) :=
  ⟨(login_error_precedence cNoCreds
      (Reachable.init "https://demo.example/src/jsonrpc.php" "key123" none none)).1
      (by decide) respOk,
   (login_error_precedence cLogged reachable_cLogged).2 (by decide) respOk⟩

/-- Claim C7: `object_create("C__OBJTYPE__SERVER", "srv1")` with the
optional arguments left at their `None` defaults goes out under the RPC
method `cmdb.object.create`, and the params dict of the dispatched body
is exactly type, title, the four optional attributes as null, and the
client api key. -/
theorem object_create_sends_exact_params (c : Idoit) (i : Int) :
    (Idoit.object_create (PyVal.pstr "C__OBJTYPE__SERVER") (PyVal.pstr "srv1")
        PyVal.pnone PyVal.pnone PyVal.pnone PyVal.pnone i).method = "cmdb.object.create"
  ∧ (c.reqBody
        (Idoit.object_create (PyVal.pstr "C__OBJTYPE__SERVER") (PyVal.pstr "srv1")
          PyVal.pnone PyVal.pnone PyVal.pnone PyVal.pnone i).method
        i
        (Idoit.object_create (PyVal.pstr "C__OBJTYPE__SERVER") (PyVal.pstr "srv1")
          PyVal.pnone PyVal.pnone PyVal.pnone PyVal.pnone i).params).get "params"
      = some (PyVal.pdict (PyDict.ofList
          [("type", PyVal.pstr "C__OBJTYPE__SERVER"), ("title", PyVal.pstr "srv1"),
           ("category", PyVal.pnone), ("purpose", PyVal.pnone),
           ("cmdb_status", PyVal.pnone), ("description", PyVal.pnone),
           ("apikey", PyVal.pstr c.api_key)])) :=
  ⟨rfl, rfl⟩

/-- Claim C8: the dispatched body is the JSON-RPC envelope: version
"2.0", the method name, the request id, and the params merged with the
client api key (the apikey entry is added, every other key is looked up
unchanged). -/
theorem req_envelope_fields (c : Idoit) (method : String) (req_id : Int) (params : PyDict) :
    (c.reqBody method req_id params).get "version" = some (PyVal.pstr "2.0")
  ∧ (c.reqBody method req_id params).get "method" = some (PyVal.pstr method)
  ∧ (c.reqBody method req_id params).get "id" = some (PyVal.pint req_id)
  ∧ (c.reqBody method req_id params).get "params"
      = some (PyVal.pdict (params.set "apikey" (PyVal.pstr c.api_key)))
  ∧ (params.set "apikey" (PyVal.pstr c.api_key)).get "apikey" = some (PyVal.pstr c.api_key)
  ∧ (∀ k, k ≠ "apikey" →
      (params.set "apikey" (PyVal.pstr c.api_key)).get k = params.get k) :=
  ⟨rfl, rfl, rfl, rfl, PyDict.get_set_self params "apikey" (PyVal.pstr c.api_key),
   fun k hk => PyDict.get_set_ne params "apikey" k (PyVal.pstr c.api_key) hk⟩

/-- Witness for C8 on an `idoit.search` call. -/
theorem req_envelope_fields_witness :
    (cFresh.reqBody "idoit.search" 1 (PyDict.ofList [("q", PyVal.pstr "server")])).get "method"
      = some (PyVal.pstr "idoit.search")
  ∧ ((PyDict.ofList [("q", PyVal.pstr "server")]).set "apikey"
        (PyVal.pstr cFresh.api_key)).get "q"
      = some (PyVal.pstr "server") := by
  refine ⟨(req_envelope_fields cFresh "idoit.search" 1
      (PyDict.ofList [("q", PyVal.pstr "server")])).2.1, ?_⟩
  have h := (req_envelope_fields cFresh "idoit.search" 1
      (PyDict.ofList [("q", PyVal.pstr "server")])).2.2.2.2.2 "q" (by decide)
  rw [h]
  rfl

/-- Claim C10: presence of credentials and session is decided by Python
truthiness, not by being non-null: with an empty-string username or
password the login raises `IdoitMissingCredentialsError` and no
username/password auth headers are attached; with an empty-string
session identifier the session header is not attached. -/
theorem truthiness_decides_auth (c : Idoit) :
    ((c.username = some "" ∨ c.password = some "") →
        (∀ resp, Idoit.login c resp = (c, some PyExc.missingCredentials))
      ∧ c.reqHeaders.hasKey "X-RPC-Auth-Username" = false
      ∧ c.reqHeaders.hasKey "X-RPC-Auth-Password" = false)
  ∧ (c.session_id = PyVal.pstr "" →
        c.reqHeaders.hasKey "X-RPC-Auth-Session" = false) := by
  constructor
  · intro hor
    have hcred : (truthyOptStr c.username && truthyOptStr c.password) = false := by
      have hemp : "".isEmpty = true := rfl
      rcases hor with h | h <;> simp [h, truthyOptStr, hemp]
    refine ⟨fun resp => ?_, ?_, ?_⟩
    · unfold Idoit.login
      rw [if_neg (by simp [hcred])]
    · simp only [Idoit.reqHeaders]
      by_cases hst : c.session_id.truthy = true
      · rw [if_pos hst]
        rfl
      · rw [if_neg hst, if_neg (by simp [hcred])]
        rfl
    · simp only [Idoit.reqHeaders]
      by_cases hst : c.session_id.truthy = true
      · rw [if_pos hst]
        rfl
      · rw [if_neg hst, if_neg (by simp [hcred])]
        rfl
  · intro hs
    simp only [Idoit.reqHeaders]
    have hemp : "".isEmpty = true := rfl
    rw [if_neg (by simp [hs, PyVal.truthy, hemp])]
    by_cases hcred : (truthyOptStr c.username && truthyOptStr c.password) = true
    · rw [if_pos hcred]
      rfl
    · rw [if_neg hcred]
      rfl

/-- Witness for C10: the client with empty-string credentials and an
empty-string session. -/
theorem truthiness_decides_auth_witness :
    Idoit.login cEmptyStrings respOk = (cEmptyStrings, some PyExc.missingCredentials)
  ∧ cEmptyStrings.reqHeaders.hasKey "X-RPC-Auth-Username" = false
  ∧ cEmptyStrings.reqHeaders.hasKey "X-RPC-Auth-Session" = false :=
  ⟨((truthiness_decides_auth cEmptyStrings).1 (Or.inl rfl)).1 respOk,
   ((truthiness_decides_auth cEmptyStrings).1 (Or.inl rfl)).2.1,
   (truthiness_decides_auth cEmptyStrings).2 rfl⟩

end Pydoit
